import Mathlib

/-! # Verification of the 6502 emulator core

Shallow embedding of `src/cpu/processor_status.rs`, `src/cpu/bus.rs`,
`src/cpu/memory.rs` and the instruction handlers of `src/cpu/cpu.rs`.
Machine integers (`u8`, `u16`) are modelled as `Nat` with explicit `% 256`
and `% 0x10000` wrapping where the Rust code wraps; bus accesses that hit
the unimplemented PPU window (a `todo!` panic in the source) and addressing
modes that panic are modelled with `Option`. -/

namespace Nes

/-- Flag mask `ProcessorStatusFlags::CarryFlag` (processor_status.rs). -/
def CarryFlag : Nat := 0b00000001

/-- Flag mask `ProcessorStatusFlags::ZeroFlag`. -/
def ZeroFlag : Nat := 0b00000010

/-- Flag mask `ProcessorStatusFlags::InterruptDisable`. -/
def InterruptDisable : Nat := 0b00000100

/-- Flag mask `ProcessorStatusFlags::DecimalMode`. -/
def DecimalMode : Nat := 0b00001000

/-- Flag mask `ProcessorStatusFlags::BreakCommand`. -/
def BreakCommand : Nat := 0b00010000

/-- Flag mask `ProcessorStatusFlags::BreakCommand2`. -/
def BreakCommand2 : Nat := 0b00100000

/-- Flag mask `ProcessorStatusFlags::Overflow`. -/
def Overflow : Nat := 0b01000000

/-- Flag mask `ProcessorStatusFlags::Negative`. -/
def Negative : Nat := 0b10000000

/-- `ProcessorStatus::set_flag_true`: `*status |= flag as u8`. -/
def set_flag_true (s f : Nat) : Nat := s ||| f

/-- `ProcessorStatus::set_flag_false`: `*status &= !(flag as u8)`; the `u8`
bitwise complement of `f` is `0xFF ^^^ f`. -/
def set_flag_false (s f : Nat) : Nat := s &&& (0xFF ^^^ f)

/-- `ProcessorStatus::has_flag_set`: `status & (flag as u8) != 0`. -/
def has_flag_set (s f : Nat) : Bool := s &&& f != 0

/-- `ProcessorStatus::update_zero_and_negative_flags` (processor_status.rs):
Zero is set iff the value is 0, Negative iff bit 7 of the value is set,
and the other branch of each pair clears the flag. -/
def update_zero_and_negative_flags (s v : Nat) : Nat :=
  let s1 := if v = 0 then set_flag_true s ZeroFlag else set_flag_false s ZeroFlag
  if v &&& 0b10000000 ≠ 0 then set_flag_true s1 Negative else set_flag_false s1 Negative

/-- Modelled from the spec: cpu.rs calls `ProcessorStatus::set_flag(flag, b)`,
which is not present in processor_status.rs (only its callers are in the
repository).  Spec §4.1 gives the contract `set(flag)` / `clear(flag)`, so
`set_flag` sets the flag when `b` is true and clears it otherwise. -/
def set_flag (s f : Nat) (b : Bool) : Nat :=
  if b then set_flag_true s f else set_flag_false s f

/-- Bus state (bus.rs): the 2 KB `cpu_vram` array, as a function from the
masked 11-bit index to the stored byte. -/
structure Bus where
  cpu_vram : Nat → Nat

/-- `Bus::read_mem_u8` (bus.rs): the RAM window `0x0000..=0x1FFF` is masked
to 11 bits (`addr & 0b00000111_11111111`); the PPU window `0x2000..=0x3FFF`
is `todo!("PPU is not supported yet")`, modelled as `none`; every other
address prints a notice and reads 0. -/
def Bus.read_mem_u8 (bus : Bus) (addr : Nat) : Option Nat :=
  if addr ≤ 0x1FFF then some (bus.cpu_vram (addr &&& 0b0000011111111111))
  else if addr ≤ 0x3FFF then none
  else some 0

/-- `Bus::write_mem_u8` (bus.rs): RAM window masked to 11 bits
(`addr & 0b11111111111`); PPU window is `todo!`; every other address
prints a notice and discards the write. -/
def Bus.write_mem_u8 (bus : Bus) (addr data : Nat) : Option Bus :=
  if addr ≤ 0x1FFF then
    some ⟨fun i => if i = addr &&& 0b11111111111 then data else bus.cpu_vram i⟩
  else if addr ≤ 0x3FFF then none
  else some bus

/-- Register file of `CPU` (cpu.rs); the bus is owned by the CPU and all
memory operations are forwarded to it. -/
structure CPU where
  program_counter : Nat
  stack_pointer : Nat
  stack_base : Nat
  accumulator : Nat
  index_register_x : Nat
  index_register_y : Nat
  processor_status : Nat
  bus : Bus

/-- `CPU::new` (cpu.rs): `stack_pointer` starts at `0x01FF`, everything else
at zero (`ProcessorStatusFlags::Default` is `0`). -/
def CPU.new (bus : Bus) : CPU :=
  { program_counter := 0, stack_pointer := 0x01FF, stack_base := 0,
    accumulator := 0, index_register_x := 0, index_register_y := 0,
    processor_status := 0, bus := bus }

/-- Rust `u16` subtraction `a - b`, wrapping view (operands below `2^16`). -/
def sub16 (a b : Nat) : Nat := (a + 0x10000 - b) % 0x10000

/-- `impl Mem for CPU`: reads forward to the bus. -/
def CPU.read_mem_u8 (cpu : CPU) (addr : Nat) : Option Nat :=
  cpu.bus.read_mem_u8 addr

/-- `impl Mem for CPU`: writes forward to the bus. -/
def CPU.write_mem_u8 (cpu : CPU) (addr data : Nat) : Option CPU :=
  (cpu.bus.write_mem_u8 addr data).map fun b => { cpu with bus := b }

/-- `Mem::read_mem_u16` (memory.rs): little-endian, two 8-bit reads at
`pos` and `pos + 1`. -/
def CPU.read_mem_u16 (cpu : CPU) (pos : Nat) : Option Nat := do
  let lo ← cpu.read_mem_u8 pos
  let hi ← cpu.read_mem_u8 ((pos + 1) % 0x10000)
  some ((hi <<< 8) ||| lo)

/-- `Mem::write_mem_u16` (memory.rs): low byte written at `pos`, high byte
at `pos + 1`. -/
def CPU.write_mem_u16 (cpu : CPU) (pos data : Nat) : Option CPU := do
  let cpu ← cpu.write_mem_u8 pos (data &&& 0xFF)
  cpu.write_mem_u8 ((pos + 1) % 0x10000) ((data >>> 8) % 256)

/-- `CPU::reset` (cpu.rs): clears `index_register_x`, `index_register_y` and
all status flags (`reset_flags` sets the byte to 0), then seeds the program
counter from the reset vector at `0xFFFC`. -/
def CPU.reset (cpu : CPU) : Option CPU := do
  let cpu := { cpu with index_register_x := 0, index_register_y := 0,
                        processor_status := 0 }
  let pc ← cpu.read_mem_u16 0xFFFC
  some { cpu with program_counter := pc }

/-- `CPU::push_stack` (cpu.rs): write at `stack_pointer - stack_base`, then
`stack_base` is incremented with `u8` wrap-around. -/
def CPU.push_stack (cpu : CPU) (data : Nat) : Option CPU := do
  let cpu ← cpu.write_mem_u8 (sub16 cpu.stack_pointer cpu.stack_base) data
  some { cpu with stack_base := (cpu.stack_base + 1) % 256 }

/-- `CPU::pop_stack` (cpu.rs): decrement `stack_base` with `u8` wrap-around,
then read at `stack_pointer - stack_base`. -/
def CPU.pop_stack (cpu : CPU) : Option (Nat × CPU) := do
  let b := (cpu.stack_base + 255) % 256
  let v ← cpu.read_mem_u8 (sub16 cpu.stack_pointer b)
  some (v, { cpu with stack_base := b })

/-- `CPU::push_stack_u16` (cpu.rs): high byte pushed first. -/
def CPU.push_stack_u16 (cpu : CPU) (data : Nat) : Option CPU := do
  let hi := (data >>> 8) % 256
  let lo := data &&& 0xFF
  let cpu ← cpu.push_stack hi
  cpu.push_stack lo

/-- `CPU::read_stack_u16` (cpu.rs): low byte popped first. -/
def CPU.read_stack_u16 (cpu : CPU) : Option (Nat × CPU) := do
  let r1 ← cpu.pop_stack
  let r2 ← r1.2.pop_stack
  some ((r2.1 <<< 8) ||| r1.1, r2.2)

/-- `CPU::set_register_a` (cpu.rs): store then update Zero/Negative from the
new accumulator value. -/
def CPU.set_register_a (cpu : CPU) (data : Nat) : CPU :=
  let cpu := { cpu with accumulator := data }
  { cpu with processor_status :=
      update_zero_and_negative_flags cpu.processor_status cpu.accumulator }

/-- `CPU::set_register_x` (cpu.rs). -/
def CPU.set_register_x (cpu : CPU) (data : Nat) : CPU :=
  let cpu := { cpu with index_register_x := data }
  { cpu with processor_status :=
      update_zero_and_negative_flags cpu.processor_status cpu.index_register_x }

/-- `CPU::set_register_y` (cpu.rs). -/
def CPU.set_register_y (cpu : CPU) (data : Nat) : CPU :=
  let cpu := { cpu with index_register_y := data }
  { cpu with processor_status :=
      update_zero_and_negative_flags cpu.processor_status cpu.index_register_y }

/-- `CPU::add_to_register_a` (cpu.rs): 16-bit widened sum of accumulator,
operand and incoming Carry; Carry from `sum > 0xFF`; Overflow from
`(data ^ result) & (result ^ accumulator) & 0x80 != 0` (old accumulator);
result stored through `set_register_a`. -/
def CPU.add_to_register_a (cpu : CPU) (data : Nat) : CPU :=
  let sum := cpu.accumulator + data +
    (if has_flag_set cpu.processor_status CarryFlag then 1 else 0)
  let carry := sum > 0xFF
  let s1 :=
    if carry then set_flag_true cpu.processor_status CarryFlag
    else set_flag_false cpu.processor_status CarryFlag
  let cpu := { cpu with processor_status := s1 }
  let result := sum % 256
  let s2 :=
    if ((data ^^^ result) &&& (result ^^^ cpu.accumulator)) &&& 0x80 ≠ 0
    then set_flag_true cpu.processor_status Overflow
    else set_flag_false cpu.processor_status Overflow
  let cpu := { cpu with processor_status := s2 }
  cpu.set_register_a result

/-- `AddressingMode` (cpu.rs). -/
inductive AddressingMode where
  | NoneAddressing
  | Accumulator
  | Relative
  | Immediate
  | ZeroPage
  | ZeroPageX
  | ZeroPageY
  | Absolute
  | AbsoluteX
  | AbsoluteY
  | Indirect
  | IndirectX
  | IndirectY

/-- `CPU::get_operand_address` (cpu.rs); the `NoneAddressing` and
`Accumulator` arms panic and are modelled as `none`. -/
def CPU.get_operand_address (cpu : CPU) (mode : AddressingMode) : Option Nat :=
  match mode with
  | .Immediate => some cpu.program_counter
  | .Relative => some cpu.program_counter
  | .ZeroPage => cpu.read_mem_u8 cpu.program_counter
  | .ZeroPageX =>
      (cpu.read_mem_u8 cpu.program_counter).map
        fun b => (b + cpu.index_register_x) % 256
  | .ZeroPageY =>
      (cpu.read_mem_u8 cpu.program_counter).map
        fun b => (b + cpu.index_register_y) % 256
  | .Absolute => cpu.read_mem_u16 cpu.program_counter
  | .AbsoluteX =>
      (cpu.read_mem_u16 cpu.program_counter).map
        fun w => (w + cpu.index_register_x) % 0x10000
  | .AbsoluteY =>
      (cpu.read_mem_u16 cpu.program_counter).map
        fun w => (w + cpu.index_register_y) % 0x10000
  | .Indirect => do
      let ptr ← cpu.read_mem_u8 cpu.program_counter
      let lo ← cpu.read_mem_u8 ptr
      let hi ← cpu.read_mem_u8 ((ptr + 1) % 256)
      some ((hi <<< 8) ||| lo)
  | .IndirectX => do
      let base ← cpu.read_mem_u8 cpu.program_counter
      let ptr := (base + cpu.index_register_x) % 256
      let lo ← cpu.read_mem_u8 ptr
      let hi ← cpu.read_mem_u8 ((ptr + 1) % 256)
      some ((hi <<< 8) ||| lo)
  | .IndirectY => do
      let base ← cpu.read_mem_u8 cpu.program_counter
      let lo ← cpu.read_mem_u8 base
      let hi ← cpu.read_mem_u8 ((base + 1) % 256)
      some ((((hi <<< 8) ||| lo) + cpu.index_register_y) % 0x10000)
  | .NoneAddressing => none
  | .Accumulator => none

/-- `CPU::adc` (cpu.rs). -/
def CPU.adc (cpu : CPU) (mode : AddressingMode) : Option CPU := do
  let addr ← cpu.get_operand_address mode
  let value ← cpu.read_mem_u8 addr
  some (cpu.add_to_register_a value)

/-- `CPU::lsr` (cpu.rs, memory form): writes `val >> 1` back, then sets Carry
from `res & 1` (a bit of the already-shifted result), then updates
Zero/Negative from the result. -/
def CPU.lsr (cpu : CPU) (mode : AddressingMode) : Option CPU := do
  let addr ← cpu.get_operand_address mode
  let val ← cpu.read_mem_u8 addr
  let res := val >>> 1
  let cpu ← cpu.write_mem_u8 addr (res % 256)
  let s1 := set_flag cpu.processor_status CarryFlag (res &&& 1 == 1)
  let cpu := { cpu with processor_status := s1 }
  let s2 := update_zero_and_negative_flags cpu.processor_status (res % 256)
  some { cpu with processor_status := s2 }

/-- `CPU::lsr_acc` (cpu.rs, accumulator form): Carry from bit 0 of the old
accumulator, then the shifted value is stored through `set_register_a`. -/
def CPU.lsr_acc (cpu : CPU) : CPU :=
  let s1 :=
    if cpu.accumulator &&& 1 = 1 then set_flag_true cpu.processor_status CarryFlag
    else set_flag_false cpu.processor_status CarryFlag
  let cpu := { cpu with processor_status := s1 }
  cpu.set_register_a (cpu.accumulator >>> 1)

/-- `CPU::ror` (cpu.rs, memory form): bit 7 of the written value is filled
from the old Carry, but Carry itself is set from bit 0 of the *accumulator*,
not of the shifted memory operand. -/
def CPU.ror (cpu : CPU) (mode : AddressingMode) : Option CPU := do
  let addr ← cpu.get_operand_address mode
  let mem_val ← cpu.read_mem_u8 addr
  let val := mem_val >>> 1
  let val := if has_flag_set cpu.processor_status CarryFlag
             then val ||| 0b10000000 else val
  let s1 := set_flag cpu.processor_status CarryFlag
    (((cpu.accumulator >>> 0) &&& 1) != 0)
  let cpu := { cpu with processor_status := s1 }
  cpu.write_mem_u8 addr val

/-- `CPU::ror_acc` (cpu.rs, accumulator form): here the accumulator *is* the
operand, so Carry from bit 0 of the accumulator is the bit shifted out. -/
def CPU.ror_acc (cpu : CPU) : CPU :=
  let val := cpu.accumulator >>> 1
  let val := if has_flag_set cpu.processor_status CarryFlag
             then val ||| 0b10000000 else val
  let s1 := set_flag cpu.processor_status CarryFlag
    (((cpu.accumulator >>> 0) &&& 1) != 0)
  let cpu := { cpu with processor_status := s1 }
  { cpu with accumulator := val }

/-- `CPU::bit` (cpu.rs): Zero is only ever set (when the AND is 0), never
cleared; Negative is taken from bit 6 and Overflow from bit 7 of the AND
result `res`, not of the raw operand. -/
def CPU.bit (cpu : CPU) (mode : AddressingMode) : Option CPU := do
  let addr ← cpu.get_operand_address mode
  let mem ← cpu.read_mem_u8 addr
  let res := cpu.accumulator &&& mem
  let cpu := if res = 0
    then { cpu with processor_status := set_flag_true cpu.processor_status ZeroFlag }
    else cpu
  let s1 := set_flag cpu.processor_status Negative (((res >>> 6) &&& 1) != 0)
  let cpu := { cpu with processor_status := s1 }
  let s2 := set_flag cpu.processor_status Overflow (((res >>> 7) &&& 1) != 0)
  some { cpu with processor_status := s2 }

/-- Rust cast chain `byte as i8 as u16`: sign extension of a byte. -/
def i8_as_u16 (b : Nat) : Nat := if b < 128 then b else 0xFF00 + b

/-- `CPU::branch` (cpu.rs): the helper used by BCC/BCS/BEQ/BNE/BPL/BMI; reads
the signed displacement at the program counter and sets
`program_counter = program_counter + 1 + sign-extended displacement`
(all with `u16` wrap-around). -/
def CPU.branch (cpu : CPU) : Option CPU := do
  let jump ← cpu.read_mem_u8 cpu.program_counter
  let jump_addr := ((cpu.program_counter + 1) % 0x10000 + i8_as_u16 jump) % 0x10000
  some { cpu with program_counter := jump_addr }

/-- `CPU::bcc` (cpu.rs). -/
def CPU.bcc (cpu : CPU) : Option CPU :=
  if has_flag_set cpu.processor_status CarryFlag = false then cpu.branch else some cpu

/-- `CPU::bcs` (cpu.rs). -/
def CPU.bcs (cpu : CPU) : Option CPU :=
  if has_flag_set cpu.processor_status CarryFlag = true then cpu.branch else some cpu

/-- `CPU::beq` (cpu.rs). -/
def CPU.beq (cpu : CPU) : Option CPU :=
  if has_flag_set cpu.processor_status ZeroFlag = true then cpu.branch else some cpu

/-- `CPU::bne` (cpu.rs). -/
def CPU.bne (cpu : CPU) : Option CPU :=
  if has_flag_set cpu.processor_status ZeroFlag = false then cpu.branch else some cpu

/-- `CPU::bpl` (cpu.rs). -/
def CPU.bpl (cpu : CPU) : Option CPU :=
  if has_flag_set cpu.processor_status Negative = false then cpu.branch else some cpu

/-- `CPU::bmi` (cpu.rs). -/
def CPU.bmi (cpu : CPU) : Option CPU :=
  if has_flag_set cpu.processor_status Negative = true then cpu.branch else some cpu

/-- `CPU::bvc` (cpu.rs): unlike the six branches above it does *not* use
`CPU::branch`; it adds the zero-extended displacement byte to the program
counter, without the `+ 1` and without sign extension. -/
def CPU.bvc (cpu : CPU) : Option CPU :=
  if has_flag_set cpu.processor_status Overflow = false then do
    let addr ← cpu.read_mem_u8 cpu.program_counter
    some { cpu with program_counter := (cpu.program_counter + addr) % 0x10000 }
  else some cpu

/-- `CPU::bvs` (cpu.rs): same deviation as `CPU::bvc`. -/
def CPU.bvs (cpu : CPU) : Option CPU :=
  if has_flag_set cpu.processor_status Overflow = true then do
    let addr ← cpu.read_mem_u8 cpu.program_counter
    some { cpu with program_counter := (cpu.program_counter + addr) % 0x10000 }
  else some cpu

/-- `Mem::read_mem_u16` over an arbitrary `Mem` implementation whose byte
read is the function `m` (e.g. `MemoryMap` in memory_map.rs reads the flat
array directly). -/
def mem_read_u16 (m : Nat → Nat) (pos : Nat) : Nat :=
  (m ((pos + 1) % 0x10000) <<< 8) ||| m pos

/-- The `0x6C` (indirect `JMP`) arm of `run_with_callback` (cpu.rs), as the
new program counter it computes from the reads it performs: the operand word
at the program counter is the pointer; if its low byte is `0xFF` the target's
high byte is fetched from `pointer & 0xFF00` (same page), reproducing the
documented hardware bug, else a normal little-endian word read at the
pointer. -/
def jmp_indirect_pc (m : Nat → Nat) (pc : Nat) : Nat :=
  let mem_address := mem_read_u16 m pc
  if mem_address &&& 0x00FF = 0x00FF then
    let lo := m mem_address
    let hi := m (mem_address &&& 0xFF00)
    (hi <<< 8) ||| lo
  else
    mem_read_u16 m mem_address

/-- The `0xBA` (`TSX`) arm of `run_with_callback` (cpu.rs):
`set_register_x(read_mem_u8(stack_pointer - stack_base.wrapping_sub(1) as u16))`. -/
def CPU.op_tsx (cpu : CPU) : Option CPU :=
  (cpu.read_mem_u8 (sub16 cpu.stack_pointer ((cpu.stack_base + 255) % 256))).map
    cpu.set_register_x

/-- The `0x9A` (`TXS`) arm of `run_with_callback` (cpu.rs):
`set_register_y(read_mem_u8(stack_pointer - stack_base.wrapping_sub(1) as u16))`. -/
def CPU.op_txs (cpu : CPU) : Option CPU :=
  (cpu.read_mem_u8 (sub16 cpu.stack_pointer ((cpu.stack_base + 255) % 256))).map
    cpu.set_register_y

/-- All-zero VRAM used by the concrete example states. -/
def zeroVram : Nat → Nat := fun _ => 0

/-- Incoming carry of `add_to_register_a`, as a numeral. -/
def adc_cin (cpu : CPU) : Nat :=
  if has_flag_set cpu.processor_status CarryFlag then 1 else 0

/-- The per-execution ADC contract of claim C1, about `add_to_register_a`:
result is the low 8 bits of `A + M + C`, Carry iff the widened sum exceeds
`0xFF`, Overflow from `(M ^ result) & (result ^ A) & 0x80`, Zero/Negative
from the stored result. -/
def AdcClaim (cpu : CPU) (data : Nat) : Prop :=
  (cpu.add_to_register_a data).accumulator
      = (cpu.accumulator + data + adc_cin cpu) % 256 ∧
  has_flag_set (cpu.add_to_register_a data).processor_status CarryFlag
      = decide (cpu.accumulator + data + adc_cin cpu > 0xFF) ∧
  has_flag_set (cpu.add_to_register_a data).processor_status Overflow
      = decide (((data ^^^ (cpu.accumulator + data + adc_cin cpu) % 256) &&&
          ((cpu.accumulator + data + adc_cin cpu) % 256 ^^^ cpu.accumulator)) &&&
          0x80 ≠ 0) ∧
  has_flag_set (cpu.add_to_register_a data).processor_status ZeroFlag
      = decide ((cpu.accumulator + data + adc_cin cpu) % 256 = 0) ∧
  has_flag_set (cpu.add_to_register_a data).processor_status Negative
      = decide ((cpu.accumulator + data + adc_cin cpu) % 256 &&& 0x80 ≠ 0)

/-- The amended BIT contract of claim C5: Zero is set when `A AND M = 0` and
left unchanged otherwise; Negative comes from bit 6 and Overflow from bit 7
of the AND result. -/
def BitAmended (cpu : CPU) (mode : AddressingMode) (m : Nat) : Prop :=
  ∃ cpu', cpu.bit mode = some cpu' ∧
    cpu'.accumulator = cpu.accumulator ∧
    has_flag_set cpu'.processor_status ZeroFlag
      = (if cpu.accumulator &&& m = 0 then true
         else has_flag_set cpu.processor_status ZeroFlag) ∧
    has_flag_set cpu'.processor_status Negative
      = ((((cpu.accumulator &&& m) >>> 6) &&& 1) != 0) ∧
    has_flag_set cpu'.processor_status Overflow
      = ((((cpu.accumulator &&& m) >>> 7) &&& 1) != 0)

/-- Accumulator `0x50`, everything else fresh (for the `0x50 ADC 0x50`
example of C1). -/
def cpuC1a : CPU := { CPU.new ⟨zeroVram⟩ with accumulator := 0x50 }

/-- Accumulator `0xFF` (for the `0xFF ADC 0x01` example of C1). -/
def cpuC1b : CPU := { CPU.new ⟨zeroVram⟩ with accumulator := 0xFF }

/-- Overflow clear, displacement byte `0x80` at the program counter
(`0x0600`), for C2. -/
def cpuC2 : CPU :=
  { CPU.new ⟨fun a => if a = 0x600 then 0x80 else 0⟩ with program_counter := 0x600 }

/-- Same memory as `cpuC2` but with Overflow set, for the BVS case of C2. -/
def cpuC2v : CPU := { cpuC2 with processor_status := 0x40 }

/-- Memory for the C3 page-boundary example: operand word `0x30FF` at the
program counter `0x0600`, byte `0x80` at `0x30FF`, `0x50` at `0x3000`,
`0x60` at `0x3100`. -/
def memC3 : Nat → Nat := fun a =>
  if a = 0x0600 then 0xFF
  else if a = 0x0601 then 0x30
  else if a = 0x30FF then 0x80
  else if a = 0x3000 then 0x50
  else if a = 0x3100 then 0x60
  else 0

/-- Memory for the C3 witness: operand word `0x1234` (low byte not `0xFF`)
at the program counter `0x0600`. -/
def memC3w : Nat → Nat := fun a =>
  if a = 0x0600 then 0x34
  else if a = 0x0601 then 0x12
  else 0

/-- Zero-page operand `0x10` holding `0x02`, for the LSR half of C4. -/
def cpuC4a : CPU :=
  { CPU.new ⟨fun a => if a = 0x600 then 0x10 else if a = 0x10 then 0x02 else 0⟩ with
    program_counter := 0x600 }

/-- Zero-page operand `0x10` holding `0x01`, accumulator 0, Carry clear,
for the ROR half of C4. -/
def cpuC4b : CPU :=
  { CPU.new ⟨fun a => if a = 0x600 then 0x10 else if a = 0x10 then 0x01 else 0⟩ with
    program_counter := 0x600 }

/-- Accumulator `0x02` for the LSR accumulator-form contrast of C4. -/
def cpuC4c : CPU := { CPU.new ⟨zeroVram⟩ with accumulator := 0x02 }

/-- Accumulator `0x01`, Carry clear, for the ROR accumulator-form contrast
of C4. -/
def cpuC4d : CPU := { CPU.new ⟨zeroVram⟩ with accumulator := 0x01 }

/-- Zero flag initially set, accumulator `0x01`, zero-page operand `0x10`
holding `0x41`, for C5. -/
def cpuC5 : CPU :=
  { CPU.new ⟨fun a => if a = 0x600 then 0x10 else if a = 0x10 then 0x41 else 0⟩ with
    program_counter := 0x600, accumulator := 0x01, processor_status := 0x02 }

/-- `index_register_x = 0x42`, Zero flag set, byte `0x37` at `0x0100` (the
address `stack_pointer - (stack_base - 1)` reads with the default stack),
for C6. -/
def cpuC6 : CPU :=
  { CPU.new ⟨fun a => if a = 0x100 then 0x37 else 0⟩ with
    index_register_x := 0x42, processor_status := 0x02 }

/-- Fresh CPU for the C7 witness. -/
def cpuC7 : CPU := CPU.new ⟨zeroVram⟩

/-- Fresh bus for the C8 witness. -/
def busC8 : Bus := ⟨zeroVram⟩

/-- Fresh CPU for the C9 counterexample. -/
def cpuC9 : CPU := CPU.new ⟨zeroVram⟩

/-- `update_zero_and_negative_flags` with its two conditions abstracted into
booleans (proof helper). -/
def uznf_b (s : Nat) (z n : Bool) : Nat :=
  let s1 := if z then set_flag_true s ZeroFlag else set_flag_false s ZeroFlag
  if n then set_flag_true s1 Negative else set_flag_false s1 Negative

/-- The Carry/Overflow status pipeline of `add_to_register_a` with its two
conditions abstracted into booleans (proof helper). -/
def adc_status (s : Nat) (c o : Bool) : Nat :=
  let s1 := if c then set_flag_true s CarryFlag else set_flag_false s CarryFlag
  if o then set_flag_true s1 Overflow else set_flag_false s1 Overflow

/-- The status pipeline of `bit` with its three conditions abstracted into
booleans (proof helper). -/
def bit_status (s : Nat) (z b1 b2 : Bool) : Nat :=
  set_flag (set_flag (if z then set_flag_true s ZeroFlag else s) Negative b1)
    Overflow b2

lemma and_2047_eq_mod (n : Nat) : n &&& 2047 = n % 2048 := by
  have h := Nat.and_pow_two_sub_one_eq_mod n 11
  norm_num at h
  exact h

lemma and_255_eq_mod (n : Nat) : n &&& 255 = n % 256 := by
  have h := Nat.and_pow_two_sub_one_eq_mod n 8
  norm_num at h
  exact h

lemma read_mem_u8_ram (cpu : CPU) (addr : Nat) (h : addr ≤ 0x1FFF) :
    cpu.read_mem_u8 addr = some (cpu.bus.cpu_vram (addr % 0x800)) := by
  simp [CPU.read_mem_u8, Bus.read_mem_u8, h, and_2047_eq_mod]

lemma write_mem_u8_ram (cpu : CPU) (addr data : Nat) (h : addr ≤ 0x1FFF) :
    cpu.write_mem_u8 addr data
      = some { cpu with bus := ⟨fun i => if i = addr % 0x800 then data else cpu.bus.cpu_vram i⟩ } := by
  simp [CPU.write_mem_u8, Bus.write_mem_u8, h, and_2047_eq_mod]

/-- C8: after `write8(addr, x)` at an address in the RAM window
`0x0000`–`0x1FFF`, `read8` returns `x` at `addr` itself and at every other
window address sharing its low 11 bits (its `0x0800`-spaced aliases),
because both paths mask the address to 11 bits. -/
theorem ram_write_read_alias (bus : Bus) (addr addr' x : Nat)
    (h : addr ≤ 0x1FFF) (h' : addr' ≤ 0x1FFF)
    (hmod : addr' % 0x800 = addr % 0x800) :
    (bus.write_mem_u8 addr x).bind (fun b => b.read_mem_u8 addr') = some x := by
  simp [Bus.write_mem_u8, Bus.read_mem_u8, h, h', and_2047_eq_mod, hmod]

theorem ram_write_read_alias_witness :
    (busC8.write_mem_u8 0x0005 0xAB).bind (fun b => b.read_mem_u8 0x1805) = some 0xAB :=
  ram_write_read_alias busC8 0x0005 0x1805 0xAB (by decide) (by decide) (by decide)

/-- C10: `reset` only modifies the program counter, X, Y and the status
flags; the accumulator, the stack pointer, the stack offset (`stack_base`)
and every byte of bus RAM hold the same values after `reset` as before. -/
theorem reset_frame (cpu : CPU) :
    ∃ cpu', cpu.reset = some cpu' ∧
      cpu'.accumulator = cpu.accumulator ∧
      cpu'.stack_pointer = cpu.stack_pointer ∧
      cpu'.stack_base = cpu.stack_base ∧
      ∀ i, cpu'.bus.cpu_vram i = cpu.bus.cpu_vram i := by
  refine ⟨_, rfl, rfl, rfl, rfl, fun i => rfl⟩

/-- C2 (code bug): with Overflow clear and displacement byte `0x80` at the
program counter `0x0600`, `bvc` sets the program counter to `0x0680` — the
zero-extended displacement added without the `+ 1` — while the helper
`branch` used by the other six branch instructions (and the claimed
semantics) gives `0x0581 = 0x0600 + 1 - 128`; `bvs` with Overflow set
deviates identically. -/
theorem bvc_bvs_branch_bug :
    cpuC2.bvc.map (fun c => c.program_counter) = some 0x0680 ∧
    cpuC2v.bvs.map (fun c => c.program_counter) = some 0x0680 ∧
    cpuC2.branch.map (fun c => c.program_counter) = some 0x0581 ∧
    (0x0680 : Nat) ≠ 0x0581 := by
  decide

/-- C4 (code bug): the memory form of LSR on value `0x02` writes back `0x01`
but sets Carry — it tests bit 0 of the already-shifted result, i.e. bit 1 of
the original value, and bit 0 of `0x02` is 0; the memory form of ROR on
value `0x01` (accumulator 0, Carry clear) writes back `0x00` but leaves
Carry clear — it tests bit 0 of the accumulator, not of the operand, and
bit 0 of `0x01` is 1.  The accumulator forms set Carry from bit 0 of the
operand as the claim states. -/
theorem lsr_ror_memory_carry_bug :
    (cpuC4a.lsr AddressingMode.ZeroPage).map
        (fun c => (has_flag_set c.processor_status CarryFlag, c.bus.cpu_vram 0x10))
      = some (true, 0x01) ∧
    (cpuC4b.ror AddressingMode.ZeroPage).map
        (fun c => (has_flag_set c.processor_status CarryFlag, c.bus.cpu_vram 0x10))
      = some (false, 0x00) ∧
    has_flag_set cpuC4c.lsr_acc.processor_status CarryFlag = false ∧
    has_flag_set cpuC4d.ror_acc.processor_status CarryFlag = true ∧
    (0x02 : Nat) &&& 1 = 0 ∧ (0x01 : Nat) &&& 1 = 1 := by
  decide

/-- C6 (code bug): the `0xBA` (`TSX`) arm loads `index_register_x` from the
memory byte at `stack_pointer - (stack_base - 1)` — here `0x37` from RAM
address `0x0100` — not from the stack register, and the `0x9A` (`TXS`) arm
loads `index_register_y` from that same memory byte and rewrites the flags
(Zero was set, the status byte becomes 0), instead of copying
`index_register_x = 0x42` into the stack register with no flag change;
both arms leave `stack_pointer` and `stack_base` untouched. -/
theorem tsx_txs_arm_bug :
    cpuC6.op_tsx.map (fun c => (c.index_register_x, c.stack_pointer, c.stack_base))
      = some (0x37, 0x01FF, 0) ∧
    cpuC6.op_txs.map
        (fun c => (c.index_register_y, c.index_register_x, c.stack_pointer,
                   c.stack_base, c.processor_status))
      = some (0x37, 0x42, 0x01FF, 0, 0) ∧
    (0x37 : Nat) ≠ 0x42 ∧ (0 : Nat) ≠ 0x02 := by
  decide

/-- C9 (counterexample): writing `0x1234` to the reset vector `0xFFFC`
through the 16-bit write and then calling `reset` leaves the program counter
at 0, not `0x1234` — the bus's catch-all arm discards the writes and reads
of `0xFFFC`/`0xFFFD` return 0. -/
theorem reset_vector_counterexample :
    ((cpuC9.write_mem_u16 0xFFFC 0x1234).bind CPU.reset).map
        (fun c => c.program_counter) = some 0 ∧
    ((cpuC9.write_mem_u16 0xFFFC 0x1234).bind CPU.reset).map
        (fun c => c.program_counter) ≠ some 0x1234 := by
  decide

/-- C9 (amended): for every CPU state and every value `V`, the 16-bit write
of `V` to `0xFFFC`/`0xFFFD` is discarded by the bus, and `reset` then reads
0 from the vector: the program counter becomes 0 regardless of `V`, and
`index_register_x`, `index_register_y` and the whole status byte are
cleared. -/
theorem reset_vector_amended (cpu : CPU) (V : Nat) :
    ((cpu.write_mem_u16 0xFFFC V).bind CPU.reset).map
        (fun c => (c.program_counter, c.index_register_x, c.index_register_y,
                   c.processor_status))
      = some (0, 0, 0, 0) := by
  simp [CPU.write_mem_u16, CPU.write_mem_u8, Bus.write_mem_u8, CPU.reset,
        CPU.read_mem_u16, CPU.read_mem_u8, Bus.read_mem_u8]

/-- C3: in the indirect `JMP` arm, when the low byte of the fetched pointer
word is not `0xFF` the new program counter is the little-endian word stored
at the pointer; when it is `0xFF` the target's low byte is read at the
pointer and its high byte at the start of the same page
(`pointer & 0xFF00`); with `0x80` at `0x30FF`, `0x50` at `0x3000` and
`0x60` at `0x3100`, `JMP (0x30FF)` yields `0x5080`, not `0x6080`. -/
theorem jmp_indirect_semantics :
    (∀ (m : Nat → Nat) (pc : Nat),
      (mem_read_u16 m pc &&& 0x00FF ≠ 0x00FF →
        jmp_indirect_pc m pc = mem_read_u16 m (mem_read_u16 m pc)) ∧
      (mem_read_u16 m pc &&& 0x00FF = 0x00FF →
        jmp_indirect_pc m pc
          = ((m (mem_read_u16 m pc &&& 0xFF00)) <<< 8) ||| m (mem_read_u16 m pc))) ∧
    jmp_indirect_pc memC3 0x0600 = 0x5080 ∧ (0x5080 : Nat) ≠ 0x6080 := by
  refine ⟨fun m pc => ⟨fun h => ?_, fun h => ?_⟩, by decide, by decide⟩
  · simp [jmp_indirect_pc, h]
  · simp [jmp_indirect_pc, h]

theorem jmp_indirect_semantics_witness :
    jmp_indirect_pc memC3w 0x0600 = mem_read_u16 memC3w (mem_read_u16 memC3w 0x0600) :=
  (jmp_indirect_semantics.1 memC3w 0x0600).1 (by decide)

lemma uznf_eq (s v : Nat) :
    update_zero_and_negative_flags s v
      = uznf_b s (decide (v = 0)) (decide (v &&& 0b10000000 ≠ 0)) := by
  by_cases h1 : v = 0 <;> by_cases h2 : v &&& 0b10000000 ≠ 0 <;>
    simp [update_zero_and_negative_flags, uznf_b, h1, h2]

set_option maxRecDepth 10000 in
lemma flag_pipeline : ∀ s < 256, ∀ c o z n : Bool,
    has_flag_set (uznf_b (adc_status s c o) z n) CarryFlag = c ∧
    has_flag_set (uznf_b (adc_status s c o) z n) Overflow = o ∧
    has_flag_set (uznf_b (adc_status s c o) z n) ZeroFlag = z ∧
    has_flag_set (uznf_b (adc_status s c o) z n) Negative = n := by
  decide

lemma add_to_register_a_status (cpu : CPU) (data : Nat) :
    (cpu.add_to_register_a data).processor_status
      = uznf_b (adc_status cpu.processor_status
            (decide (cpu.accumulator + data + adc_cin cpu > 0xFF))
            (decide (((data ^^^ (cpu.accumulator + data + adc_cin cpu) % 256) &&&
                ((cpu.accumulator + data + adc_cin cpu) % 256 ^^^ cpu.accumulator)) &&&
                0x80 ≠ 0)))
          (decide ((cpu.accumulator + data + adc_cin cpu) % 256 = 0))
          (decide ((cpu.accumulator + data + adc_cin cpu) % 256 &&& 0b10000000 ≠ 0)) := by
  by_cases h1 : cpu.accumulator + data + adc_cin cpu > 0xFF <;>
  by_cases h2 : ((data ^^^ (cpu.accumulator + data + adc_cin cpu) % 256) &&&
      ((cpu.accumulator + data + adc_cin cpu) % 256 ^^^ cpu.accumulator)) &&& 0x80 ≠ 0 <;>
  by_cases h3 : (cpu.accumulator + data + adc_cin cpu) % 256 = 0 <;>
  by_cases h4 : (cpu.accumulator + data + adc_cin cpu) % 256 &&& 0b10000000 ≠ 0 <;>
    simp [CPU.add_to_register_a, CPU.set_register_a, adc_cin, adc_status, uznf_b,
          update_zero_and_negative_flags, h1, h2, h3, h4]

/-- C1: `add_to_register_a` (the resolved-operand body of ADC) stores the
low 8 bits of `A + M + C`, sets Carry iff the widened sum exceeds `0xFF`,
sets Overflow iff `(M ^ result) & (result ^ A) & 0x80` is nonzero, and
updates Zero/Negative from the stored result; in particular
`0x50 ADC 0x50` with carry clear gives accumulator `0xA0` with Overflow set
and Carry clear, and `0xFF ADC 0x01` gives `0x00` with Carry and Zero set. -/
theorem adc_semantics (cpu : CPU) (data : Nat) (hs : cpu.processor_status < 256) :
    AdcClaim cpu data ∧
    (cpuC1a.add_to_register_a 0x50).accumulator = 0xA0 ∧
    has_flag_set (cpuC1a.add_to_register_a 0x50).processor_status Overflow = true ∧
    has_flag_set (cpuC1a.add_to_register_a 0x50).processor_status CarryFlag = false ∧
    (cpuC1b.add_to_register_a 0x01).accumulator = 0x00 ∧
    has_flag_set (cpuC1b.add_to_register_a 0x01).processor_status CarryFlag = true ∧
    has_flag_set (cpuC1b.add_to_register_a 0x01).processor_status ZeroFlag = true := by
  refine ⟨⟨rfl, ?_, ?_, ?_, ?_⟩,
    by decide, by decide, by decide, by decide, by decide, by decide⟩
  all_goals rw [add_to_register_a_status]
  · exact (flag_pipeline _ hs _ _ _ _).1
  · exact (flag_pipeline _ hs _ _ _ _).2.1
  · exact (flag_pipeline _ hs _ _ _ _).2.2.1
  · exact (flag_pipeline _ hs _ _ _ _).2.2.2

theorem adc_semantics_witness :
    AdcClaim cpuC1a 0x50 ∧
    (cpuC1a.add_to_register_a 0x50).accumulator = 0xA0 ∧
    has_flag_set (cpuC1a.add_to_register_a 0x50).processor_status Overflow = true ∧
    has_flag_set (cpuC1a.add_to_register_a 0x50).processor_status CarryFlag = false ∧
    (cpuC1b.add_to_register_a 0x01).accumulator = 0x00 ∧
    has_flag_set (cpuC1b.add_to_register_a 0x01).processor_status CarryFlag = true ∧
    has_flag_set (cpuC1b.add_to_register_a 0x01).processor_status ZeroFlag = true :=
  adc_semantics cpuC1a 0x50 (by decide)

set_option maxRecDepth 10000 in
lemma bit_flag_pipeline : ∀ s < 256, ∀ z b1 b2 : Bool,
    has_flag_set (bit_status s z b1 b2) ZeroFlag
      = (if z then true else has_flag_set s ZeroFlag) ∧
    has_flag_set (bit_status s z b1 b2) Negative = b1 ∧
    has_flag_set (bit_status s z b1 b2) Overflow = b2 := by
  decide

lemma bit_status_eq (cpu : CPU) (mode : AddressingMode) (a m : Nat)
    (h1 : cpu.get_operand_address mode = some a)
    (h2 : cpu.read_mem_u8 a = some m) :
    cpu.bit mode = some { cpu with processor_status :=
      (bit_status cpu.processor_status (decide (cpu.accumulator &&& m = 0))
        ((((cpu.accumulator &&& m) >>> 6) &&& 1) != 0)
        ((((cpu.accumulator &&& m) >>> 7) &&& 1) != 0)) } := by
  by_cases h3 : cpu.accumulator &&& m = 0 <;>
    simp [CPU.bit, h1, h2, bit_status, h3]

/-- C5 (amended): `bit` sets Zero when `A AND M = 0` and leaves it unchanged
when the AND is nonzero, sets Negative from bit 6 of the AND result and
Overflow from bit 7 of the AND result (not of the raw operand), and leaves
the accumulator unchanged. -/
theorem bit_amended (cpu : CPU) (mode : AddressingMode) (a m : Nat)
    (hs : cpu.processor_status < 256)
    (h1 : cpu.get_operand_address mode = some a)
    (h2 : cpu.read_mem_u8 a = some m) :
    BitAmended cpu mode m := by
  refine ⟨_, bit_status_eq cpu mode a m h1 h2, rfl, ?_, ?_, ?_⟩
  · have h := (bit_flag_pipeline cpu.processor_status hs
      (decide (cpu.accumulator &&& m = 0))
      ((((cpu.accumulator &&& m) >>> 6) &&& 1) != 0)
      ((((cpu.accumulator &&& m) >>> 7) &&& 1) != 0)).1
    simpa using h
  · exact (bit_flag_pipeline cpu.processor_status hs _ _ _).2.1
  · exact (bit_flag_pipeline cpu.processor_status hs _ _ _).2.2

theorem bit_amended_witness : BitAmended cpuC5 AddressingMode.ZeroPage 0x41 :=
  bit_amended cpuC5 AddressingMode.ZeroPage 0x10 0x41 (by decide) (by decide) (by decide)

/-- C5 (counterexample): accumulator `0x01`, raw operand `0x41`, Zero flag
initially set.  The AND result `0x01` is nonzero, so the claim demands Zero
cleared and Negative set (bit 6 of the raw operand `0x41` is 1); the code
leaves Zero set — it never clears it — and leaves Negative clear, because it
reads bit 6 of the AND result `0x01`. -/
theorem bit_claim_counterexample :
    (cpuC5.bit AddressingMode.ZeroPage).map
        (fun c => (has_flag_set c.processor_status ZeroFlag,
                   has_flag_set c.processor_status Negative)) = some (true, false) ∧
    (0x01 : Nat) &&& 0x41 ≠ 0 ∧ ((0x41 : Nat) >>> 6) &&& 1 = 1 := by
  decide

lemma read_mem_u8_ram' (cpu : CPU) (addr : Nat) (h : addr < 0x800) :
    cpu.read_mem_u8 addr = some (cpu.bus.cpu_vram addr) := by
  rw [read_mem_u8_ram cpu addr (by omega), Nat.mod_eq_of_lt h]

lemma write_mem_u8_ram' (cpu : CPU) (addr data : Nat) (h : addr < 0x800) :
    cpu.write_mem_u8 addr data
      = some { cpu with bus := ⟨fun i => if i = addr then data else cpu.bus.cpu_vram i⟩ } := by
  rw [write_mem_u8_ram cpu addr data (by omega), Nat.mod_eq_of_lt h]

lemma push_stack_eq (cpu : CPU) (data : Nat)
    (hsp : cpu.stack_pointer = 0x01FF) (hb : cpu.stack_base < 256) :
    cpu.push_stack data
      = some { cpu with
          bus := ⟨fun i => if i = 0x1FF - cpu.stack_base then data else cpu.bus.cpu_vram i⟩,
          stack_base := (cpu.stack_base + 1) % 256 } := by
  unfold CPU.push_stack
  have e1 : sub16 cpu.stack_pointer cpu.stack_base = 0x1FF - cpu.stack_base := by
    unfold sub16; rw [hsp]; omega
  rw [e1, write_mem_u8_ram' cpu (0x1FF - cpu.stack_base) data (by omega)]
  rfl

lemma pop_stack_eq (cpu : CPU)
    (hsp : cpu.stack_pointer = 0x01FF) (hb : cpu.stack_base < 256) :
    cpu.pop_stack
      = some (cpu.bus.cpu_vram (0x1FF - (cpu.stack_base + 255) % 256),
          { cpu with stack_base := (cpu.stack_base + 255) % 256 }) := by
  simp only [CPU.pop_stack]
  have e1 : sub16 cpu.stack_pointer ((cpu.stack_base + 255) % 256)
      = 0x1FF - (cpu.stack_base + 255) % 256 := by
    unfold sub16; rw [hsp]; omega
  rw [e1, read_mem_u8_ram' cpu (0x1FF - (cpu.stack_base + 255) % 256) (by omega)]
  rfl

lemma hi_lo_or (V : Nat) (hV : V < 0x10000) :
    (((V >>> 8) % 256) <<< 8) ||| (V &&& 0xFF) = V := by
  have h1 : V >>> 8 = V / 256 := by
    rw [Nat.shiftRight_eq_div_pow]
  have h2 : V &&& 255 = V % 256 := and_255_eq_mod V
  have h3 : V / 256 < 256 := by omega
  rw [h1, Nat.mod_eq_of_lt h3, h2, Nat.shiftLeft_eq]
  have h4 := Nat.mul_add_lt_is_or (show V % 256 < 2 ^ 8 by omega) (V / 256)
  have h5 : V / 256 * 2 ^ 8 = 2 ^ 8 * (V / 256) := by ring
  rw [h5, ← h4]
  omega

lemma push_stack_mk (pc sb acc ix iy ps : Nat) (vram : Nat → Nat)
    (data : Nat) (hb : sb < 256) :
    CPU.push_stack ⟨pc, 0x01FF, sb, acc, ix, iy, ps, ⟨vram⟩⟩ data
      = some ⟨pc, 0x01FF, (sb + 1) % 256, acc, ix, iy, ps,
          ⟨fun i => if i = 0x1FF - sb then data else vram i⟩⟩ := by
  rw [push_stack_eq _ data rfl hb]

lemma pop_stack_mk (pc sb acc ix iy ps : Nat) (vram : Nat → Nat)
    (hb : sb < 256) :
    CPU.pop_stack ⟨pc, 0x01FF, sb, acc, ix, iy, ps, ⟨vram⟩⟩
      = some (vram (0x1FF - (sb + 255) % 256),
          ⟨pc, 0x01FF, (sb + 255) % 256, acc, ix, iy, ps, ⟨vram⟩⟩) := by
  rw [pop_stack_eq _ rfl hb]

/-- C7: with `stack_pointer` at its default `0x01FF`, pushing any 16-bit
value (high byte first, each byte written at `stack_pointer - stack_offset`
before the offset moves) and then popping a 16-bit value returns exactly
that value and leaves `stack_base` (the stack offset) at its starting
value. -/
theorem stack_push_pop_u16 (cpu : CPU) (V : Nat)
    (hsp : cpu.stack_pointer = 0x01FF) (hb : cpu.stack_base < 256)
    (hV : V < 0x10000) :
    ∃ cpu', (cpu.push_stack_u16 V).bind CPU.read_stack_u16 = some (V, cpu') ∧
      cpu'.stack_base = cpu.stack_base := by
  obtain ⟨pc, sp, sb, acc, ix, iy, ps, ⟨vram⟩⟩ := cpu
  dsimp only at hsp hb ⊢
  subst hsp
  simp only [CPU.push_stack_u16, CPU.read_stack_u16]
  rw [push_stack_mk pc sb acc ix iy ps vram ((V >>> 8) % 256) hb]
  simp only [Option.bind_eq_bind, Option.some_bind]
  rw [push_stack_mk pc ((sb + 1) % 256) acc ix iy ps _ (V &&& 0xFF)
    (Nat.mod_lt _ (by omega))]
  simp only [Option.bind_eq_bind, Option.some_bind]
  rw [pop_stack_mk pc (((sb + 1) % 256 + 1) % 256) acc ix iy ps _
    (Nat.mod_lt _ (by omega))]
  simp only [Option.bind_eq_bind, Option.some_bind]
  rw [pop_stack_mk pc ((((sb + 1) % 256 + 1) % 256 + 255) % 256) acc ix iy ps _
    (Nat.mod_lt _ (by omega))]
  simp only [Option.bind_eq_bind, Option.some_bind]
  have e1 : ((sb + 1) % 256 + 255) % 256 = sb := by
    omega
  have e2 : (((sb + 1) % 256 + 1) % 256 + 255) % 256 = (sb + 1) % 256 := by
    omega
  have e3 : (0x1FF - sb : Nat) ≠ 0x1FF - (sb + 1) % 256 := by
    omega
  simp only [e2, e1]
  simp only [if_neg e3, if_true]
  rw [hi_lo_or V hV]
  exact ⟨_, rfl, rfl⟩

theorem stack_push_pop_u16_witness :
    ∃ cpu', (cpuC7.push_stack_u16 0xABCD).bind CPU.read_stack_u16 = some (0xABCD, cpu') ∧
      cpu'.stack_base = cpuC7.stack_base :=
  stack_push_pop_u16 cpuC7 0xABCD rfl (by decide) (by decide)

end Nes
